import Mathlib

/-!
Shallow embedding of the insight engine from
`src/components/profile/services/insightService.ts`: historical pattern
analysis, technique interaction aggregation, priority scoring, and the
strengths/weaknesses selection of `getStrengthsAndWeaknesses`.
TypeScript numbers are modelled as real numbers; the external supabase
collaborators, the date formatter, the wall clock and the random template
choice are modelled as explicit inputs collected in a `FetchEnv`.
-/

namespace InsightService

noncomputable section

/-- The 8 fixed cognitive dimensions of an assessment row. -/
inductive Field where
  | creativity_score
  | problem_solving
  | pattern_recognition
  | focus_duration
  | task_switching
  | emotional_regulation
  | organization
  | time_awareness
deriving DecidableEq

/-- `AssessmentData` from the source: one assessment row. -/
structure AssessmentData where
  id : String
  completed_at : String
  creativity_score : ℝ
  problem_solving : ℝ
  pattern_recognition : ℝ
  focus_duration : ℝ
  task_switching : ℝ
  emotional_regulation : ℝ
  organization : ℝ
  time_awareness : ℝ

/-- Dynamic field access `a[field]` used by the source on assessment rows. -/
def AssessmentData.get (a : AssessmentData) : Field → ℝ
  | Field.creativity_score => a.creativity_score
  | Field.problem_solving => a.problem_solving
  | Field.pattern_recognition => a.pattern_recognition
  | Field.focus_duration => a.focus_duration
  | Field.task_switching => a.task_switching
  | Field.emotional_regulation => a.emotional_regulation
  | Field.organization => a.organization
  | Field.time_awareness => a.time_awareness

/-- The `cognitiveFields` array of `analyzeHistoricalPatterns`, in source order. -/
def cognitiveFields : List Field :=
  [Field.creativity_score, Field.problem_solving, Field.pattern_recognition,
   Field.focus_duration, Field.task_switching, Field.emotional_regulation,
   Field.organization, Field.time_awareness]

/-- Trend values of a dimension pattern. -/
inductive Trend where
  | improving
  | declining
  | stable
deriving DecidableEq

/-- Per-dimension historical statistics computed by `analyzeHistoricalPatterns`. -/
structure DimensionPattern where
  average : ℝ
  trend : Trend
  consistency : ℝ

/-- `analyzeHistoricalPatterns` from the source.  The returned record is
modelled as a function from dimension to optional pattern; the empty record
returned on empty input is the constantly-`none` function. -/
def analyzeHistoricalPatterns (assessments : List AssessmentData) :
    Field → Option DimensionPattern :=
  if assessments.length = 0 then fun _ => none
  else fun field =>
    let values := assessments.map fun a => a.get field
    let average := values.foldl (fun sum val => sum + val) 0 / (values.length : ℝ)
    let trend : Trend :=
      if values.length ≥ 4 then
        let midPoint := values.length / 2
        let firstHalf := values.take midPoint
        let secondHalf := values.drop midPoint
        let firstAvg := firstHalf.foldl (fun sum val => sum + val) 0 / (firstHalf.length : ℝ)
        let secondAvg := secondHalf.foldl (fun sum val => sum + val) 0 / (secondHalf.length : ℝ)
        if secondAvg > firstAvg + 5 then Trend.improving
        else if secondAvg < firstAvg - 5 then Trend.declining
        else Trend.stable
      else Trend.stable
    let variance := values.foldl (fun sum val => sum + (val - average) ^ 2) 0 / (values.length : ℝ)
    let consistency := max 0 (100 - Real.sqrt variance)
    some { average := average, trend := trend, consistency := consistency }

/-- Feedback states of a technique interaction (besides `null`). -/
inductive Feedback where
  | helpful
  | notHelpful
deriving DecidableEq

/-- `TechniqueInteraction` from the source; `feedback : null` is `none`. -/
structure TechniqueInteraction where
  technique_id : String
  technique_title : String
  feedback : Option Feedback
  created_at : String
deriving DecidableEq

/-- The per-technique counters accumulated by `analyzeTechniquePatterns`. -/
structure TechniqueStats where
  helpful : ℕ
  notHelpful : ℕ
  totalInteractions : ℕ
  categories : List String
deriving DecidableEq

/-- The zero-initialised entry created when a technique key is first seen. -/
def emptyStats : TechniqueStats :=
  { helpful := 0, notHelpful := 0, totalInteractions := 0, categories := [] }

/-- One iteration of the `forEach` loop in `analyzeTechniquePatterns`. -/
def statsStep (stats : String → Option TechniqueStats)
    (interaction : TechniqueInteraction) : String → Option TechniqueStats :=
  let key := interaction.technique_id
  let s0 := (stats key).getD emptyStats
  let s1 := { s0 with totalInteractions := s0.totalInteractions + 1 }
  let s2 := if interaction.feedback = some Feedback.helpful then
      { s1 with helpful := s1.helpful + 1 } else s1
  let s3 := if interaction.feedback = some Feedback.notHelpful then
      { s2 with notHelpful := s2.notHelpful + 1 } else s2
  Function.update stats key (some s3)

/-- `analyzeTechniquePatterns` from the source: the record keyed by technique
id is modelled as a function from key to optional stats. -/
def analyzeTechniquePatterns (interactions : List TechniqueInteraction) :
    String → Option TechniqueStats :=
  interactions.foldl statsStep (fun _ => none)

/-- The `area` argument of `calculatePriorityScore`. -/
structure ScoreArea where
  field : Field
  value : ℝ
  pattern : Option DimensionPattern

/-- `calculatePriorityScore` from the source.  The JavaScript truthiness test
`if (area.pattern.average)` is the test that the average is nonzero. -/
def calculatePriorityScore (area : ScoreArea)
    (_patterns : Field → Option DimensionPattern)
    (allAssessments : List AssessmentData) : ℝ :=
  let score := area.value
  let score :=
    match area.pattern with
    | some pattern =>
      let score :=
        if pattern.trend = Trend.improving then score + 15
        else if pattern.trend = Trend.declining then score - 10
        else score
      let score :=
        if pattern.consistency > 80 then score + 8
        else if pattern.consistency < 40 then score - 5
        else score
      if pattern.average ≠ 0 then
        let historicalWeight := min ((allAssessments.length : ℝ) / 10) 0.3
        score * (1 - historicalWeight) + pattern.average * historicalWeight
      else score
    | none => score
  let score :=
    if allAssessments.length > 1 then
      let recentTrend := (allAssessments.take 3).map fun a => a.get area.field
      if recentTrend.length ≥ 2 then
        let recentChange := recentTrend.getD 0 0 - recentTrend.getD (recentTrend.length - 1) 0
        score + recentChange * 0.2
      else score
    else score
  max 0 (min 100 score)

/-- `Insight` from the source: an area/description pair. -/
structure Insight where
  area : String
  description : String
deriving DecidableEq

/-- `UserInsights` from the source; optional fields default to absent. -/
structure UserInsights where
  id : Option String := none
  strengths : List Insight
  weaknesses : List Insight
  generalInsight : String
  createdAt : Option String := none
  assessmentId : Option String := none
deriving DecidableEq

/-- One entry of the `cognitiveAreas` array. -/
structure CognitiveArea where
  field : Field
  value : ℝ
  pattern : Option DimensionPattern
  area : String
  strengthDescription : String
  growthDescription : String

/-- A cognitive area extended with the fields added in `scoredAreas`. -/
structure ScoredArea extends CognitiveArea where
  priorityScore : ℝ
  isStrength : Bool
  isWeakness : Bool

/-- The `cognitiveAreas` array literal of `getStrengthsAndWeaknesses`. -/
def cognitiveAreas (latestAssessment : AssessmentData)
    (historicalPatterns : Field → Option DimensionPattern) : List CognitiveArea :=
  [{ field := Field.creativity_score,
     value := latestAssessment.creativity_score,
     pattern := historicalPatterns Field.creativity_score,
     area := "Creativity",
     strengthDescription := "You excel at generating original ideas and thinking outside the box.",
     growthDescription := "Focus on developing creative thinking and innovative problem-solving approaches." },
   { field := Field.problem_solving,
     value := latestAssessment.problem_solving,
     pattern := historicalPatterns Field.problem_solving,
     area := "Problem Solving",
     strengthDescription := "You demonstrate strong abilities in finding solutions to complex challenges.",
     growthDescription := "Work on developing systematic approaches to problem-solving and analytical thinking." },
   { field := Field.pattern_recognition,
     value := latestAssessment.pattern_recognition,
     pattern := historicalPatterns Field.pattern_recognition,
     area := "Pattern Recognition",
     strengthDescription := "You can easily identify connections and patterns where others might not see them.",
     growthDescription := "Practice identifying patterns and connections in information and experiences." },
   { field := Field.focus_duration,
     value := latestAssessment.focus_duration,
     pattern := historicalPatterns Field.focus_duration,
     area := "Focus Duration",
     strengthDescription := "You maintain excellent concentration for extended periods.",
     growthDescription := "Improve your ability to maintain concentration for extended periods." },
   { field := Field.task_switching,
     value := latestAssessment.task_switching,
     pattern := historicalPatterns Field.task_switching,
     area := "Task Switching",
     strengthDescription := "You transition smoothly between different activities while maintaining focus.",
     growthDescription := "Work on transitioning between different activities smoothly without losing focus." },
   { field := Field.emotional_regulation,
     value := latestAssessment.emotional_regulation,
     pattern := historicalPatterns Field.emotional_regulation,
     area := "Emotional Regulation",
     strengthDescription := "You manage emotional responses effectively in challenging situations.",
     growthDescription := "Develop strategies to better manage emotional responses to stressors." },
   { field := Field.organization,
     value := latestAssessment.organization,
     pattern := historicalPatterns Field.organization,
     area := "Organization",
     strengthDescription := "You maintain excellent organization in tasks, environment, and information.",
     growthDescription := "Create systems to better organize your tasks, environment, and information." },
   { field := Field.time_awareness,
     value := latestAssessment.time_awareness,
     pattern := historicalPatterns Field.time_awareness,
     area := "Time Awareness",
     strengthDescription := "You have strong skills in estimating and managing time effectively.",
     growthDescription := "Build skills to better estimate and manage time for various activities." }]

/-- The `STRENGTH_THRESHOLD` constant of the source. -/
def STRENGTH_THRESHOLD : ℝ := 70

/-- The `scoredAreas` computation of the source, for a non-empty assessment
sequence `latest :: rest` as supplied by the caller (newest first). -/
def scoredAreas (latest : AssessmentData) (rest : List AssessmentData) :
    List ScoredArea :=
  let allAssessments := latest :: rest
  let historicalPatterns := analyzeHistoricalPatterns allAssessments
  (cognitiveAreas latest historicalPatterns).map fun item =>
    let priorityScore :=
      calculatePriorityScore { field := item.field, value := item.value, pattern := item.pattern }
        historicalPatterns allAssessments
    { toCognitiveArea := item,
      priorityScore := priorityScore,
      isStrength := decide (priorityScore ≥ STRENGTH_THRESHOLD),
      isWeakness := decide (priorityScore < STRENGTH_THRESHOLD) }

/-- The consistency used by the strength tie-break, `b.pattern?.consistency || 0`. -/
def consistencyOrZero (x : ScoredArea) : ℝ :=
  (x.pattern.map DimensionPattern.consistency).getD 0

/-- The strength comparator of the source as a may-precede relation: `a` may
come before `b` exactly when the comparator value is `≤ 0`. -/
def strengthLE (a b : ScoredArea) : Bool :=
  if |a.priorityScore - b.priorityScore| > 5 then
    decide (b.priorityScore ≤ a.priorityScore)
  else
    decide (consistencyOrZero b ≤ consistencyOrZero a)

/-- The adjusted weakness key: `priorityScore` plus 10 for an improving trend. -/
def weaknessActionability (x : ScoredArea) : ℝ :=
  x.priorityScore +
    (if (x.pattern.map DimensionPattern.trend) = some Trend.improving then 10 else 0)

/-- The weakness comparator of the source as a may-precede relation. -/
def weaknessLE (a b : ScoredArea) : Bool :=
  decide (weaknessActionability a ≤ weaknessActionability b)

/-- The strength candidates after filtering and (stable) sorting. -/
def strengthSorted (latest : AssessmentData) (rest : List AssessmentData) :
    List ScoredArea :=
  ((scoredAreas latest rest).filter fun item => item.isStrength).mergeSort strengthLE

/-- The weakness candidates after filtering and (stable) sorting. -/
def weaknessSorted (latest : AssessmentData) (rest : List AssessmentData) :
    List ScoredArea :=
  ((scoredAreas latest rest).filter fun item => item.isWeakness).mergeSort weaknessLE

/-- `potentialStrengths` of the source. -/
def potentialStrengths (latest : AssessmentData) (rest : List AssessmentData) :
    List Insight :=
  ((strengthSorted latest rest).take 3).map fun item =>
    { area := item.area, description := item.strengthDescription }

/-- `potentialWeaknesses` of the source. -/
def potentialWeaknesses (latest : AssessmentData) (rest : List AssessmentData) :
    List Insight :=
  ((weaknessSorted latest rest).take 3).map fun item =>
    { area := item.area, description := item.growthDescription }

/-- The `timeContext` string computed from the current hour. -/
def timeContextOf (currentHour : ℕ) : String :=
  if currentHour < 12 then "morning"
  else if currentHour < 18 then "afternoon"
  else "evening"

/-- The `improvingAreas` list of the narrative step: names of areas whose
pattern trend is improving, in the iteration order of the pattern record. -/
def improvingAreas (latest : AssessmentData) (rest : List AssessmentData) :
    List String :=
  let historicalPatterns := analyzeHistoricalPatterns (latest :: rest)
  ((cognitiveFields.filter fun f =>
      decide (((historicalPatterns f).map DimensionPattern.trend) = some Trend.improving)).filterMap
    fun f =>
      ((cognitiveAreas latest historicalPatterns).find? fun a => decide (a.field = f)).map
        CognitiveArea.area)

/-- The `helpfulTechniques` count of the narrative step. -/
def helpfulTechniquesCount (interactionsList : List TechniqueInteraction) : ℕ :=
  let techniquePatterns := analyzeTechniquePatterns interactionsList
  (((interactionsList.map TechniqueInteraction.technique_id).dedup).filter fun k =>
    match techniquePatterns k with
    | some stats => decide (stats.helpful > stats.notHelpful ∧ stats.helpful > 0)
    | none => false).length

/-- The `strengthsPhrase` of the narrative step. -/
def strengthsPhraseOf (strengths : List Insight) : String :=
  if strengths.length > 0 then
    "your key strengths are " ++ String.intercalate ", " (strengths.map Insight.area)
  else "you\x27re developing strengths across multiple areas"

/-- The `weaknessesPhrase` of the narrative step. -/
def weaknessesPhraseOf (weaknesses : List Insight) : String :=
  if weaknesses.length > 0 then
    "focusing on " ++ String.intercalate ", " (weaknesses.map Insight.area) ++
      " will help you progress further"
  else "you\x27re performing well across all assessed areas"

/-- The `patternPhrase` of the narrative step. -/
def patternPhraseOf (improving : List String) : String :=
  if improving.length > 0 then
    " Your " ++ String.intercalate " and " improving ++ " " ++
      (if improving.length > 1 then "are" else "is") ++
      " showing positive trends over time."
  else ""

/-- The `techniquePhrase` of the narrative step. -/
def techniquePhraseOf (helpfulTechniques : ℕ) : String :=
  if helpfulTechniques > 0 then
    " Based on your interactions, you\x27ve found " ++ toString helpfulTechniques ++
      " technique" ++ (if helpfulTechniques > 1 then "s" else "") ++
      " particularly helpful."
  else ""

/-- The three `insightTemplates` strings, fully interpolated. -/
def insightTemplates (assessmentCount : ℕ) (formattedDate strengthsPhrase
    weaknessesPhrase patternPhrase techniquePhrase : String) : List String :=
  let plural := if assessmentCount > 1 then "s" else ""
  ["Based on " ++ toString assessmentCount ++ " assessment" ++ plural ++
     " and your latest results from " ++ formattedDate ++ ", " ++ strengthsPhrase ++
     ". " ++ weaknessesPhrase ++ "." ++ patternPhrase ++ techniquePhrase,
   "Your journey shows that " ++ strengthsPhrase ++ ", with data from " ++
     toString assessmentCount ++ " assessment" ++ plural ++ " including " ++
     formattedDate ++ ". To continue growing, " ++ weaknessesPhrase ++ "." ++
     patternPhrase ++ techniquePhrase,
   "Analysis of your " ++ toString assessmentCount ++ " assessment" ++ plural ++
     " (latest: " ++ formattedDate ++ ") reveals " ++ strengthsPhrase ++
     ". For optimal progress, " ++ weaknessesPhrase ++ "." ++ patternPhrase ++
     techniquePhrase]

/-- The row returned by the insight-history insert. -/
structure SavedRow where
  id : String
  created_at : String
deriving DecidableEq

/-- The record written to the insight-history table. -/
structure InsightToSave where
  user_id : String
  general_insight : String
  strengths : List Insight
  weaknesses : List Insight
  assessment_id : String
deriving DecidableEq

/-- The external collaborators and nondeterministic inputs of one call of
`getStrengthsAndWeaknesses`: the two fetches (an error, a `null` row set, or
rows), the result of the persistence insert, the date formatter, the current
wall-clock hour and the random template index. -/
structure FetchEnv where
  assessments : Except String (Option (List AssessmentData))
  interactions : Except String (Option (List TechniqueInteraction))
  saveResult : Except String SavedRow
  formatDate : String → String
  currentHour : ℕ
  randomPick : Fin 3

/-- The fixed fallback returned from the catch-all handler. -/
def fallbackInsights : UserInsights :=
  { strengths := [], weaknesses := [],
    generalInsight := "We\x27re having trouble analyzing your data. Please try again later." }

/-- The fixed result returned when no assessments exist. -/
def noAssessmentInsights : UserInsights :=
  { strengths := [], weaknesses := [],
    generalInsight := "Complete an assessment to see personalized insights." }

/-- `getStrengthsAndWeaknesses` from the source.  The returned pair is the
`UserInsights` result together with the insert request sent to the
persistence collaborator (`none` when no insert was issued).  A failing
assessment fetch throws and is caught by the catch-all handler; a failing
interaction fetch leaves the row set `null`, which the source replaces by
the empty list; a failing insert leaves `id`/`createdAt` unset. -/
def getStrengthsAndWeaknesses (userId : String) (env : FetchEnv) :
    UserInsights × Option InsightToSave :=
  match env.assessments with
  | Except.error _ => (fallbackInsights, none)
  | Except.ok none => (noAssessmentInsights, none)
  | Except.ok (some []) => (noAssessmentInsights, none)
  | Except.ok (some (latestAssessment :: rest)) =>
    let allAssessments := latestAssessment :: rest
    let interactionsList : List TechniqueInteraction :=
      match env.interactions with
      | Except.ok (some l) => l
      | _ => []
    let strengths := (potentialStrengths latestAssessment rest).take 3
    let weaknesses := (potentialWeaknesses latestAssessment rest).take 3
    let formattedDate := env.formatDate latestAssessment.completed_at
    let _timeContext := timeContextOf env.currentHour
    let assessmentCount := allAssessments.length
    let strengthsPhrase := strengthsPhraseOf strengths
    let weaknessesPhrase := weaknessesPhraseOf weaknesses
    let patternPhrase := patternPhraseOf (improvingAreas latestAssessment rest)
    let techniquePhrase := techniquePhraseOf (helpfulTechniquesCount interactionsList)
    let generalInsight :=
      (insightTemplates assessmentCount formattedDate strengthsPhrase
        weaknessesPhrase patternPhrase techniquePhrase).getD env.randomPick.val ""
    let insightToSave : InsightToSave :=
      { user_id := userId, general_insight := generalInsight,
        strengths := strengths, weaknesses := weaknesses,
        assessment_id := latestAssessment.id }
    match env.saveResult with
    | Except.ok savedInsight =>
      ({ id := some savedInsight.id, strengths := strengths, weaknesses := weaknesses,
         generalInsight := generalInsight, createdAt := some savedInsight.created_at,
         assessmentId := some latestAssessment.id }, some insightToSave)
    | Except.error _ =>
      ({ id := none, strengths := strengths, weaknesses := weaknesses,
         generalInsight := generalInsight, createdAt := none,
         assessmentId := some latestAssessment.id }, some insightToSave)

/-! ### Spec-side formulations (from the wording of the specification) -/

/-- Spec wording: the arithmetic mean of a list of values. -/
def specMean (values : List ℝ) : ℝ := values.sum / values.length

/-- Spec wording: the first half after splitting at index `floor(n/2)`. -/
def specFirstHalf (values : List ℝ) : List ℝ :=
  (values.splitAt (values.length / 2)).1

/-- Spec wording: the second half after splitting at index `floor(n/2)`. -/
def specSecondHalf (values : List ℝ) : List ℝ :=
  (values.splitAt (values.length / 2)).2

/-- Spec wording of the trend rule: stable for fewer than 4 records, else
compare the two half means with margin 5. -/
def specTrend (values : List ℝ) : Trend :=
  if values.length < 4 then Trend.stable
  else if specMean (specFirstHalf values) + 5 < specMean (specSecondHalf values) then
    Trend.improving
  else if specMean (specSecondHalf values) < specMean (specFirstHalf values) - 5 then
    Trend.declining
  else Trend.stable

/-- Spec wording: the population variance of a list of values. -/
def specPopVariance (values : List ℝ) : ℝ :=
  ((values.map fun v => (v - specMean values) ^ 2).sum) / values.length

/-- Spec wording: `max 0 (100 - population standard deviation)`. -/
def specConsistency (values : List ℝ) : ℝ :=
  max 0 (100 - Real.sqrt (specPopVariance values))

/-! ### Helper lemmas -/

theorem foldl_add_eq_add_sum (l : List ℝ) (a : ℝ) :
    l.foldl (fun sum val => sum + val) a = a + l.sum := by
  induction l generalizing a with
  | nil => simp
  | cons x xs ih => simp [ih, add_assoc]

theorem foldl_addsq_eq_add_sum (l : List ℝ) (c a : ℝ) :
    l.foldl (fun sum val => sum + (val - c) ^ 2) a =
      a + (l.map fun v => (v - c) ^ 2).sum := by
  induction l generalizing a with
  | nil => simp
  | cons x xs ih => simp [ih, add_assoc]

/-! ### Claim theorems -/

/-- C2: for every input, the priority score returned by
`calculatePriorityScore` lies in the closed interval `[0, 100]`, because the
final step clamps the accumulated score. -/
theorem calculatePriorityScore_mem_Icc (area : ScoreArea)
    (patterns : Field → Option DimensionPattern)
    (allAssessments : List AssessmentData) :
    0 ≤ calculatePriorityScore area patterns allAssessments ∧
      calculatePriorityScore area patterns allAssessments ≤ 100 := by
  simp only [calculatePriorityScore]
  exact ⟨le_max_left _ _, max_le (by norm_num) (min_le_left _ _)⟩

/-- C4: when the assessment fetch fails, `getStrengthsAndWeaknesses` returns
exactly the fixed fallback result, with no id, creation timestamp or
assessment id, and issues no persistence write. -/
theorem fetchFailure_yields_fallback (userId : String) (env : FetchEnv)
    (e : String) (h : env.assessments = Except.error e) :
    getStrengthsAndWeaknesses userId env =
      ({ id := none, strengths := [], weaknesses := [],
         generalInsight := "We\x27re having trouble analyzing your data. Please try again later.",
         createdAt := none, assessmentId := none }, none) := by
  unfold getStrengthsAndWeaknesses
  rw [h]
  rfl

/-- A concrete environment whose assessment fetch fails. -/
def failEnv : FetchEnv :=
  { assessments := Except.error "fetch failed",
    interactions := Except.ok (some []),
    saveResult := Except.ok { id := "h1", created_at := "2024-01-02" },
    formatDate := fun _ => "01/01/2024",
    currentHour := 9,
    randomPick := 0 }

/-- Witness for C4 at a concrete failing environment. -/
theorem fetchFailure_yields_fallback_witness :
    failEnv.assessments = Except.error "fetch failed" ∧
    getStrengthsAndWeaknesses "user-1" failEnv =
      ({ id := none, strengths := [], weaknesses := [],
         generalInsight := "We\x27re having trouble analyzing your data. Please try again later.",
         createdAt := none, assessmentId := none }, none) :=
  ⟨rfl, fetchFailure_yields_fallback "user-1" failEnv "fetch failed" rfl⟩

/-- C5: when the fetched assessment sequence is `null` or empty,
`getStrengthsAndWeaknesses` returns exactly the fixed "complete an
assessment" result and issues no persistence write; the result is a constant,
independent of the interaction fetch, the saver and every other input. -/
theorem emptyAssessments_shortCircuit (userId : String) (env : FetchEnv)
    (h : env.assessments = Except.ok none ∨ env.assessments = Except.ok (some [])) :
    getStrengthsAndWeaknesses userId env =
      ({ id := none, strengths := [], weaknesses := [],
         generalInsight := "Complete an assessment to see personalized insights.",
         createdAt := none, assessmentId := none }, none) := by
  rcases h with h | h <;> (unfold getStrengthsAndWeaknesses; rw [h]; rfl)

/-- A concrete environment whose assessment fetch returns no rows. -/
def emptyEnv : FetchEnv :=
  { assessments := Except.ok (some []),
    interactions := Except.error "interactions fetch failed",
    saveResult := Except.ok { id := "h2", created_at := "2024-01-03" },
    formatDate := fun _ => "02/01/2024",
    currentHour := 20,
    randomPick := 1 }

/-- Witness for C5 at a concrete empty-data environment. -/
theorem emptyAssessments_shortCircuit_witness :
    (emptyEnv.assessments = Except.ok none ∨
      emptyEnv.assessments = Except.ok (some [])) ∧
    getStrengthsAndWeaknesses "user-2" emptyEnv =
      ({ id := none, strengths := [], weaknesses := [],
         generalInsight := "Complete an assessment to see personalized insights.",
         createdAt := none, assessmentId := none }, none) :=
  ⟨Or.inr rfl, emptyAssessments_shortCircuit "user-2" emptyEnv (Or.inr rfl)⟩

/-- C3: on every non-empty assessment sequence and every dimension,
`analyzeHistoricalPatterns` returns the arithmetic mean, the half-split trend
with margin 5 (stable below 4 records), and
`max 0 (100 - population standard deviation)` as consistency. -/
theorem analyzeHistoricalPatterns_spec (assessments : List AssessmentData)
    (h : assessments ≠ []) (field : Field) :
    analyzeHistoricalPatterns assessments field =
      some { average := specMean (assessments.map fun a => a.get field),
             trend := specTrend (assessments.map fun a => a.get field),
             consistency := specConsistency (assessments.map fun a => a.get field) } := by
  have hlen : ¬ assessments.length = 0 := by
    simpa [List.length_eq_zero] using h
  have havg : ∀ l : List ℝ,
      l.foldl (fun sum val => sum + val) 0 / (l.length : ℝ) = specMean l := by
    intro l
    rw [foldl_add_eq_add_sum, zero_add, specMean]
  simp only [analyzeHistoricalPatterns, if_neg hlen]
  refine congrArg some ?_
  rw [DimensionPattern.mk.injEq]
  refine ⟨?_, ?_, ?_⟩
  · exact havg _
  · by_cases h4 : (assessments.map fun a => a.get field).length < 4
    · rw [specTrend, if_pos h4, if_neg (by omega)]
    · rw [specTrend, if_neg h4, if_pos (by omega)]
      simp only [List.splitAt_eq, specFirstHalf, specSecondHalf, havg]
  · rw [havg, foldl_addsq_eq_add_sum, zero_add, specConsistency, specPopVariance]

/-- The single assessment row of the high-score scenario: creativity at 85,
every other dimension at 80. -/
def demoAssessment : AssessmentData :=
  { id := "a1", completed_at := "2024-01-01", creativity_score := 85,
    problem_solving := 80, pattern_recognition := 80, focus_duration := 80,
    task_switching := 80, emotional_regulation := 80, organization := 80,
    time_awareness := 80 }

/-- Witness for C3 at a concrete singleton assessment list. -/
theorem analyzeHistoricalPatterns_spec_witness :
    ([demoAssessment] : List AssessmentData) ≠ [] ∧
    analyzeHistoricalPatterns [demoAssessment] Field.creativity_score =
      some { average := specMean ([demoAssessment].map fun a => a.get Field.creativity_score),
             trend := specTrend ([demoAssessment].map fun a => a.get Field.creativity_score),
             consistency := specConsistency
               ([demoAssessment].map fun a => a.get Field.creativity_score) } :=
  ⟨by simp, analyzeHistoricalPatterns_spec [demoAssessment] (by simp) Field.creativity_score⟩

/-- Number of interaction records carrying the given technique key. -/
def countKey (l : List TechniqueInteraction) (k : String) : ℕ :=
  l.countP fun i => decide (i.technique_id = k)

/-- Number of records with the given key and helpful feedback. -/
def countHelpfulKey (l : List TechniqueInteraction) (k : String) : ℕ :=
  l.countP fun i => decide (i.technique_id = k) && decide (i.feedback = some Feedback.helpful)

/-- Number of records with the given key and not-helpful feedback. -/
def countNotHelpfulKey (l : List TechniqueInteraction) (k : String) : ℕ :=
  l.countP fun i => decide (i.technique_id = k) && decide (i.feedback = some Feedback.notHelpful)

/-- Number of records with the given key and absent feedback. -/
def countAbsentKey (l : List TechniqueInteraction) (k : String) : ℕ :=
  l.countP fun i => decide (i.technique_id = k) && decide (i.feedback = none)

theorem foldl_statsStep_apply (l : List TechniqueInteraction)
    (m : String → Option TechniqueStats) (k : String) :
    (l.foldl statsStep m) k =
      if countKey l k = 0 then m k
      else some
        { helpful := ((m k).getD emptyStats).helpful + countHelpfulKey l k,
          notHelpful := ((m k).getD emptyStats).notHelpful + countNotHelpfulKey l k,
          totalInteractions := ((m k).getD emptyStats).totalInteractions + countKey l k,
          categories := ((m k).getD emptyStats).categories } := by
  induction l generalizing m with
  | nil => simp [countKey]
  | cons i l ih =>
    rw [List.foldl_cons, ih]
    by_cases hik : i.technique_id = k
    · subst hik
      have hupd : statsStep m i i.technique_id ≠ none := by
        simp [statsStep, Function.update_same]
      have hcons : countKey (i :: l) i.technique_id = countKey l i.technique_id + 1 := by
        simp [countKey, List.countP_cons]
      rcases hf : i.feedback with _ | f
      · have hs3 : statsStep m i i.technique_id =
            some { helpful := ((m i.technique_id).getD emptyStats).helpful,
                   notHelpful := ((m i.technique_id).getD emptyStats).notHelpful,
                   totalInteractions :=
                     ((m i.technique_id).getD emptyStats).totalInteractions + 1,
                   categories := ((m i.technique_id).getD emptyStats).categories } := by
          simp [statsStep, hf, Function.update_same]
        by_cases h0 : countKey l i.technique_id = 0
        · have hno : ∀ a ∈ l, ¬ a.technique_id = i.technique_id := by
            rw [countKey, List.countP_eq_zero] at h0
            intro a ha
            simpa using h0 a ha
          simp [h0, hcons, hs3, countHelpfulKey, countNotHelpfulKey,
            List.countP_cons, hf]
          exact ⟨fun a ha hk => absurd hk (hno a ha),
            fun a ha hk => absurd hk (hno a ha)⟩
        · simp [h0, hcons, hs3, countHelpfulKey, countNotHelpfulKey,
            List.countP_cons, hf]
          omega
      · cases f
        · have hs3 : statsStep m i i.technique_id =
              some { helpful := ((m i.technique_id).getD emptyStats).helpful + 1,
                     notHelpful := ((m i.technique_id).getD emptyStats).notHelpful,
                     totalInteractions :=
                       ((m i.technique_id).getD emptyStats).totalInteractions + 1,
                     categories := ((m i.technique_id).getD emptyStats).categories } := by
            simp [statsStep, hf, Function.update_same]
          by_cases h0 : countKey l i.technique_id = 0
          · have hno : ∀ a ∈ l, ¬ a.technique_id = i.technique_id := by
              rw [countKey, List.countP_eq_zero] at h0
              intro a ha
              simpa using h0 a ha
            simp [h0, hcons, hs3, countHelpfulKey, countNotHelpfulKey,
              List.countP_cons, hf]
            exact ⟨fun a ha hk => absurd hk (hno a ha),
              fun a ha hk => absurd hk (hno a ha)⟩
          · simp [h0, hcons, hs3, countHelpfulKey, countNotHelpfulKey,
              List.countP_cons, hf]
            omega
        · have hs3 : statsStep m i i.technique_id =
              some { helpful := ((m i.technique_id).getD emptyStats).helpful,
                     notHelpful := ((m i.technique_id).getD emptyStats).notHelpful + 1,
                     totalInteractions :=
                       ((m i.technique_id).getD emptyStats).totalInteractions + 1,
                     categories := ((m i.technique_id).getD emptyStats).categories } := by
            simp [statsStep, hf, Function.update_same]
          by_cases h0 : countKey l i.technique_id = 0
          · have hno : ∀ a ∈ l, ¬ a.technique_id = i.technique_id := by
              rw [countKey, List.countP_eq_zero] at h0
              intro a ha
              simpa using h0 a ha
            simp [h0, hcons, hs3, countHelpfulKey, countNotHelpfulKey,
              List.countP_cons, hf]
            exact ⟨fun a ha hk => absurd hk (hno a ha),
              fun a ha hk => absurd hk (hno a ha)⟩
          · simp [h0, hcons, hs3, countHelpfulKey, countNotHelpfulKey,
              List.countP_cons, hf]
            omega
    · have hmk : statsStep m i k = m k :=
        Function.update_noteq (fun hc => hik hc.symm) _ _
      have hK : countKey (i :: l) k = countKey l k := by
        simp [countKey, List.countP_cons, hik]
      have hH : countHelpfulKey (i :: l) k = countHelpfulKey l k := by
        simp [countHelpfulKey, List.countP_cons, hik]
      have hN : countNotHelpfulKey (i :: l) k = countNotHelpfulKey l k := by
        simp [countNotHelpfulKey, List.countP_cons, hik]
      rw [hmk, hK, hH, hN]

/-- Evaluation of `analyzeTechniquePatterns` at a key: the entry exists iff
the key occurs, and then carries the three counters and empty categories. -/
theorem analyzeTechniquePatterns_apply (l : List TechniqueInteraction) (k : String) :
    analyzeTechniquePatterns l k =
      if countKey l k = 0 then none
      else some
        { helpful := countHelpfulKey l k,
          notHelpful := countNotHelpfulKey l k,
          totalInteractions := countKey l k,
          categories := [] } := by
  simpa [analyzeTechniquePatterns, emptyStats] using
    foldl_statsStep_apply l (fun _ => none) k

theorem countKey_eq_split (l : List TechniqueInteraction) (k : String) :
    countKey l k = countHelpfulKey l k + countNotHelpfulKey l k + countAbsentKey l k := by
  induction l with
  | nil => simp [countKey, countHelpfulKey, countNotHelpfulKey, countAbsentKey]
  | cons i l ih =>
    simp only [countKey, countHelpfulKey, countNotHelpfulKey, countAbsentKey,
      List.countP_cons] at *
    rcases hf : i.feedback with _ | f
    · by_cases hik : i.technique_id = k <;> simp [hik, hf] <;> omega
    · cases f <;> by_cases hik : i.technique_id = k <;> simp [hik, hf] <;> omega

/-- C7: for every interaction sequence and technique key, the stats entry of
`analyzeTechniquePatterns` satisfies `helpful` = number of helpful records,
`notHelpful` = number of not-helpful records, and `totalInteractions` =
`helpful + notHelpful +` number of records with absent feedback; and
permuting the input yields the same mapping. -/
theorem analyzeTechniquePatterns_counts (l lp : List TechniqueInteraction)
    (k : String) (hperm : l.Perm lp) :
    analyzeTechniquePatterns l k = analyzeTechniquePatterns lp k ∧
    ∀ s, analyzeTechniquePatterns l k = some s →
      s.helpful = countHelpfulKey l k ∧
      s.notHelpful = countNotHelpfulKey l k ∧
      s.totalInteractions = s.helpful + s.notHelpful + countAbsentKey l k := by
  constructor
  · rw [analyzeTechniquePatterns_apply, analyzeTechniquePatterns_apply]
    simp only [countKey, countHelpfulKey, countNotHelpfulKey, hperm.countP_eq]
  · intro s hs
    rw [analyzeTechniquePatterns_apply] at hs
    by_cases h0 : countKey l k = 0
    · simp [h0] at hs
    · rw [if_neg h0] at hs
      cases hs.symm
      refine ⟨rfl, rfl, ?_⟩
      exact countKey_eq_split l k

/-- A concrete helpful interaction on technique `t1`. -/
def demoInteractionA : TechniqueInteraction :=
  { technique_id := "t1", technique_title := "Body doubling",
    feedback := some Feedback.helpful, created_at := "2024-01-01" }

/-- A concrete feedback-free interaction on technique `t1`. -/
def demoInteractionB : TechniqueInteraction :=
  { technique_id := "t1", technique_title := "Body doubling",
    feedback := none, created_at := "2024-01-02" }

/-- Witness for C7 at a concrete two-element interaction list and its swap. -/
theorem analyzeTechniquePatterns_counts_witness :
    [demoInteractionA, demoInteractionB].Perm [demoInteractionB, demoInteractionA] ∧
    (analyzeTechniquePatterns [demoInteractionA, demoInteractionB] "t1" =
        analyzeTechniquePatterns [demoInteractionB, demoInteractionA] "t1" ∧
      ∀ s, analyzeTechniquePatterns [demoInteractionA, demoInteractionB] "t1" = some s →
        s.helpful = countHelpfulKey [demoInteractionA, demoInteractionB] "t1" ∧
        s.notHelpful = countNotHelpfulKey [demoInteractionA, demoInteractionB] "t1" ∧
        s.totalInteractions = s.helpful + s.notHelpful +
          countAbsentKey [demoInteractionA, demoInteractionB] "t1") :=
  ⟨List.Perm.swap demoInteractionB demoInteractionA [],
    analyzeTechniquePatterns_counts [demoInteractionA, demoInteractionB]
      [demoInteractionB, demoInteractionA] "t1"
      (List.Perm.swap demoInteractionB demoInteractionA [])⟩

/-- On a single assessment record every dimension pattern is the record's own
value with a stable trend and consistency exactly 100. -/
theorem analyzeHistoricalPatterns_single (r : AssessmentData) (f : Field) :
    analyzeHistoricalPatterns [r] f =
      some { average := r.get f, trend := Trend.stable, consistency := 100 } := by
  simp [analyzeHistoricalPatterns]

/-- The priority score of a dimension with a nonzero value on a single-record
input: the stable trend leaves the raw value, the consistency bonus adds 8,
and the historical blend with weight 1/10 turns `v + 8` into `v + 36/5`. -/
theorem calculatePriorityScore_single (r : AssessmentData) (f : Field) (v : ℝ)
    (hv : v ≠ 0) :
    calculatePriorityScore
      { field := f, value := v,
        pattern := some { average := v, trend := Trend.stable, consistency := 100 } }
      (analyzeHistoricalPatterns [r]) [r] = max 0 (min 100 (v + 36 / 5)) := by
  have hw : min ((1 : ℝ) / 10) 0.3 = 1 / 10 := by norm_num
  simp only [calculatePriorityScore]
  rw [if_neg (by decide : ¬ (Trend.stable = Trend.improving)),
    if_neg (by decide : ¬ (Trend.stable = Trend.declining))]
  norm_num [hv, hw]
  rw [show (v + 8) * (9 / 10) + v * (1 / 10) = v + 36 / 5 by ring]

/-- C10: on a single-record input every dimension has a pattern whose average
is the record's own value, whose trend is stable and whose consistency is
exactly 100; hence with a nonzero value the consistency bonus and the
historical blend both apply, giving `clamp((v + 8) * 9/10 + v * 1/10)`,
that is `clamp(v + 36/5)`. -/
theorem singleRecord_pattern_and_blend (r : AssessmentData) (f : Field) :
    analyzeHistoricalPatterns [r] f =
      some { average := r.get f, trend := Trend.stable, consistency := 100 } ∧
    (r.get f ≠ 0 →
      calculatePriorityScore
        { field := f, value := r.get f,
          pattern := analyzeHistoricalPatterns [r] f }
        (analyzeHistoricalPatterns [r]) [r] = max 0 (min 100 (r.get f + 36 / 5))) := by
  refine ⟨analyzeHistoricalPatterns_single r f, fun hv => ?_⟩
  rw [analyzeHistoricalPatterns_single r f]
  exact calculatePriorityScore_single r f (r.get f) hv

/-- Witness for C10 at the concrete single high-score record. -/
theorem singleRecord_pattern_and_blend_witness :
    demoAssessment.get Field.creativity_score ≠ 0 ∧
    calculatePriorityScore
      { field := Field.creativity_score,
        value := demoAssessment.get Field.creativity_score,
        pattern := analyzeHistoricalPatterns [demoAssessment] Field.creativity_score }
      (analyzeHistoricalPatterns [demoAssessment]) [demoAssessment] =
      max 0 (min 100 (demoAssessment.get Field.creativity_score + 36 / 5)) :=
  ⟨by simp [demoAssessment, AssessmentData.get],
    (singleRecord_pattern_and_blend demoAssessment Field.creativity_score).2
      (by simp [demoAssessment, AssessmentData.get])⟩

/-- The environment of the high-score scenario: one assessment record with
creativity 85 and all other dimensions 80, and no interaction records. -/
def demoEnv : FetchEnv :=
  { assessments := Except.ok (some [demoAssessment]),
    interactions := Except.ok (some []),
    saveResult := Except.ok { id := "h3", created_at := "2024-01-05" },
    formatDate := fun _ => "01/01/2024",
    currentHour := 10,
    randomPick := 2 }

/-- Every scored area of the high-score scenario reaches the threshold. -/
theorem demo_scored_strength :
    ∀ item ∈ scoredAreas demoAssessment [],
      (70 : ℝ) ≤ item.priorityScore ∧ item.isStrength = true ∧
        item.isWeakness = false := by
  intro item him
  have hpat : ∀ f, analyzeHistoricalPatterns [demoAssessment] f =
      some { average := demoAssessment.get f, trend := Trend.stable,
             consistency := 100 } :=
    analyzeHistoricalPatterns_single demoAssessment
  have hsc : ∀ (f : Field) (v : ℝ), v = demoAssessment.get f → v ≠ 0 →
      calculatePriorityScore
        { field := f, value := v,
          pattern := analyzeHistoricalPatterns [demoAssessment] f }
        (analyzeHistoricalPatterns [demoAssessment]) [demoAssessment] =
        max 0 (min 100 (v + 36 / 5)) := by
    intro f v hveq hv
    subst hveq
    rw [hpat f]
    exact calculatePriorityScore_single demoAssessment f _ hv
  simp only [scoredAreas, cognitiveAreas, List.map_cons, List.map_nil,
    List.mem_cons, List.not_mem_nil, or_false] at him
  have hb : ∀ p : ℝ, 70 ≤ p →
      (70 : ℝ) ≤ p ∧ decide (p ≥ STRENGTH_THRESHOLD) = true ∧
        decide (p < STRENGTH_THRESHOLD) = false := by
    intro p hp
    refine ⟨hp, ?_, ?_⟩ <;> simp [STRENGTH_THRESHOLD] <;> linarith
  rcases him with rfl | rfl | rfl | rfl | rfl | rfl | rfl | rfl <;>
    refine hb _ ?_ <;>
    rw [hsc] <;>
    norm_num [demoAssessment, AssessmentData.get, min_def, max_def]

/-- C6: in the scenario with a single assessment record having creativity 85
and every other dimension 80 and no interaction records, every one of the 8
dimensions is classified as a strength, so the result has exactly 3
strengths (capped from 8) and no weaknesses. -/
theorem highScoreScenario :
    ((scoredAreas demoAssessment []).all fun item => item.isStrength) = true ∧
    (getStrengthsAndWeaknesses "user-6" demoEnv).1.strengths.length = 3 ∧
    (getStrengthsAndWeaknesses "user-6" demoEnv).1.weaknesses.length = 0 := by
  have hall := demo_scored_strength
  refine ⟨List.all_eq_true.mpr fun a ha => (hall a ha).2.1, ?_, ?_⟩
  · have hs : (getStrengthsAndWeaknesses "user-6" demoEnv).1.strengths =
        (potentialStrengths demoAssessment []).take 3 := rfl
    have hfil : (scoredAreas demoAssessment []).filter
        (fun item => item.isStrength) = scoredAreas demoAssessment [] :=
      List.filter_eq_self.mpr fun a ha => (hall a ha).2.1
    have hlen8 : (scoredAreas demoAssessment []).length = 8 := by
      simp [scoredAreas, cognitiveAreas]
    rw [hs]
    simp [potentialStrengths, strengthSorted, hfil, hlen8]
  · have hw : (getStrengthsAndWeaknesses "user-6" demoEnv).1.weaknesses =
        (potentialWeaknesses demoAssessment []).take 3 := rfl
    have hfil : (scoredAreas demoAssessment []).filter
        (fun item => item.isWeakness) = [] :=
      List.filter_eq_nil_iff.mpr fun a ha => by
        simp [(hall a ha).2.2]
    rw [hw]
    simp [potentialWeaknesses, weaknessSorted, hfil]

theorem weaknessLE_trans : ∀ a b c : ScoredArea,
    weaknessLE a b → weaknessLE b c → weaknessLE a c := by
  intro a b c hab hbc
  simp only [weaknessLE, decide_eq_true_eq] at *
  exact le_trans hab hbc

theorem weaknessLE_total : ∀ a b : ScoredArea, weaknessLE a b || weaknessLE b a := by
  intro a b
  simp only [weaknessLE, Bool.or_eq_true, decide_eq_true_eq]
  exact le_total _ _

/-- C8: the weakness candidates are sorted ascending by the adjusted key
`priorityScore + (10 if the trend is improving else 0)`; the sorted list is a
permutation of the below-threshold dimensions; the selection is its first 3;
hence every omitted candidate has an adjusted key at least that of every
selected one. -/
theorem weaknessSelection_sorted (latest : AssessmentData)
    (rest : List AssessmentData) :
    (weaknessSorted latest rest).Pairwise
      (fun a b => weaknessActionability a ≤ weaknessActionability b) ∧
    (weaknessSorted latest rest).Perm
      ((scoredAreas latest rest).filter fun item => item.isWeakness) ∧
    potentialWeaknesses latest rest =
      ((weaknessSorted latest rest).take 3).map
        (fun item => { area := item.area, description := item.growthDescription }) ∧
    ((weaknessSorted latest rest).drop 3).Forall fun b =>
      ((weaknessSorted latest rest).take 3).Forall fun a =>
        weaknessActionability a ≤ weaknessActionability b := by
  have hpw : (weaknessSorted latest rest).Pairwise
      (fun a b => weaknessActionability a ≤ weaknessActionability b) :=
    (List.sorted_mergeSort weaknessLE_trans weaknessLE_total _).imp
      fun h => of_decide_eq_true h
  refine ⟨hpw, List.mergeSort_perm _ _, rfl, ?_⟩
  have hsplit := List.take_append_drop 3 (weaknessSorted latest rest)
  rw [← hsplit, List.pairwise_append] at hpw
  rcases hpw with ⟨-, -, hcross⟩
  rw [List.forall_iff_forall_mem]
  intro b hb
  rw [List.forall_iff_forall_mem]
  intro a ha
  exact hcross a ha b hb

/-- The 8 scored areas carry pairwise distinct area names. -/
theorem scoredAreas_pairwise_area (latest : AssessmentData)
    (rest : List AssessmentData) :
    (scoredAreas latest rest).Pairwise fun a b => a.area ≠ b.area := by
  simp [scoredAreas, cognitiveAreas, List.pairwise_map, List.pairwise_cons]

theorem eq_of_mem_area_pairwise {l : List ScoredArea}
    (hp : l.Pairwise fun a b => a.area ≠ b.area) {a b : ScoredArea}
    (ha : a ∈ l) (hb : b ∈ l) (hab : a.area = b.area) : a = b := by
  induction l with
  | nil => cases ha
  | cons x xs ih =>
    rcases List.pairwise_cons.mp hp with ⟨hx, hxs⟩
    rcases List.mem_cons.mp ha with rfl | ha2
    · rcases List.mem_cons.mp hb with rfl | hb2
      · rfl
      · exact absurd hab (hx b hb2)
    · rcases List.mem_cons.mp hb with rfl | hb2
      · exact absurd hab.symm (hx a ha2)
      · exact ih hxs ha2 hb2

/-- Each scored area is classified by comparing its own priority score with
the threshold. -/
theorem scoredAreas_class (latest : AssessmentData) (rest : List AssessmentData) :
    ∀ item ∈ scoredAreas latest rest,
      item.isStrength = decide (item.priorityScore ≥ STRENGTH_THRESHOLD) ∧
      item.isWeakness = decide (item.priorityScore < STRENGTH_THRESHOLD) := by
  intro item him
  simp only [scoredAreas, List.mem_map] at him
  rcases him with ⟨a, -, rfl⟩
  exact ⟨rfl, rfl⟩

/-- Every selected strength insight comes from a scored area classified as a
strength with the same area name. -/
theorem mem_strengths_exists (latest : AssessmentData) (rest : List AssessmentData)
    {s : Insight} (hs : s ∈ (potentialStrengths latest rest).take 3) :
    ∃ item ∈ scoredAreas latest rest,
      item.isStrength = true ∧ s.area = item.area := by
  have hs' := List.mem_of_mem_take hs
  simp only [potentialStrengths] at hs'
  rcases List.mem_map.mp hs' with ⟨item, hmem, rfl⟩
  have hm : item ∈ strengthSorted latest rest := List.mem_of_mem_take hmem
  rw [strengthSorted, List.mem_mergeSort] at hm
  rcases List.mem_filter.mp hm with ⟨hmem2, hflag⟩
  exact ⟨item, hmem2, hflag, rfl⟩

/-- Every selected weakness insight comes from a scored area classified as a
weakness with the same area name. -/
theorem mem_weaknesses_exists (latest : AssessmentData) (rest : List AssessmentData)
    {w : Insight} (hw : w ∈ (potentialWeaknesses latest rest).take 3) :
    ∃ item ∈ scoredAreas latest rest,
      item.isWeakness = true ∧ w.area = item.area := by
  have hw' := List.mem_of_mem_take hw
  simp only [potentialWeaknesses] at hw'
  rcases List.mem_map.mp hw' with ⟨item, hmem, rfl⟩
  have hm : item ∈ weaknessSorted latest rest := List.mem_of_mem_take hmem
  rw [weaknessSorted, List.mem_mergeSort] at hm
  rcases List.mem_filter.mp hm with ⟨hmem2, hflag⟩
  exact ⟨item, hmem2, hflag, rfl⟩

/-- On the successful analysis path the returned strengths are the first 3
of `potentialStrengths` and the weaknesses the first 3 of
`potentialWeaknesses`. -/
theorem result_lists_eq (userId : String) (env : FetchEnv)
    (latest : AssessmentData) (rest : List AssessmentData)
    (h : env.assessments = Except.ok (some (latest :: rest))) :
    (getStrengthsAndWeaknesses userId env).1.strengths =
        (potentialStrengths latest rest).take 3 ∧
    (getStrengthsAndWeaknesses userId env).1.weaknesses =
        (potentialWeaknesses latest rest).take 3 := by
  unfold getStrengthsAndWeaknesses
  rw [h]
  cases env.saveResult <;> exact ⟨rfl, rfl⟩

/-- C1: on the successful analysis path there are at most 3 strengths and at
most 3 weaknesses, and no area name appears in both lists, since each list
draws from the two disjoint threshold classes. -/
theorem resultLists_bounded_disjoint (userId : String) (env : FetchEnv)
    (latest : AssessmentData) (rest : List AssessmentData)
    (h : env.assessments = Except.ok (some (latest :: rest))) :
    (getStrengthsAndWeaknesses userId env).1.strengths.length ≤ 3 ∧
    (getStrengthsAndWeaknesses userId env).1.weaknesses.length ≤ 3 ∧
    ((getStrengthsAndWeaknesses userId env).1.strengths.map Insight.area).Disjoint
      ((getStrengthsAndWeaknesses userId env).1.weaknesses.map Insight.area) := by
  rcases result_lists_eq userId env latest rest h with ⟨hstr, hwk⟩
  rw [hstr, hwk]
  refine ⟨List.length_take_le 3 _, List.length_take_le 3 _, ?_⟩
  intro name hn1 hn2
  rcases List.mem_map.mp hn1 with ⟨s, hs, hs1⟩
  rcases List.mem_map.mp hn2 with ⟨w, hw, hw1⟩
  rcases mem_strengths_exists latest rest hs with ⟨is_item, hims, hisflag, hsa⟩
  rcases mem_weaknesses_exists latest rest hw with ⟨iw, himw, hiwflag, hwa⟩
  have heq : is_item = iw :=
    eq_of_mem_area_pairwise (scoredAreas_pairwise_area latest rest) hims himw
      (by rw [← hsa, ← hwa, hs1, hw1])
  have h1 : decide (is_item.priorityScore ≥ STRENGTH_THRESHOLD) = true := by
    rw [← (scoredAreas_class latest rest is_item hims).1]
    exact hisflag
  have h2 : decide (iw.priorityScore < STRENGTH_THRESHOLD) = true := by
    rw [← (scoredAreas_class latest rest iw himw).2]
    exact hiwflag
  rw [decide_eq_true_eq] at h1 h2
  rw [heq] at h1
  exact absurd h1 (not_le.mpr h2)

/-- Witness for C1 at the concrete single-record environment. -/
theorem resultLists_bounded_disjoint_witness :
    demoEnv.assessments = Except.ok (some [demoAssessment]) ∧
    ((getStrengthsAndWeaknesses "user-1c" demoEnv).1.strengths.length ≤ 3 ∧
     (getStrengthsAndWeaknesses "user-1c" demoEnv).1.weaknesses.length ≤ 3 ∧
     ((getStrengthsAndWeaknesses "user-1c" demoEnv).1.strengths.map Insight.area).Disjoint
       ((getStrengthsAndWeaknesses "user-1c" demoEnv).1.weaknesses.map Insight.area)) :=
  ⟨rfl, resultLists_bounded_disjoint "user-1c" demoEnv demoAssessment [] rfl⟩

/-- The two threshold classes of the 8 scored areas together have exactly 8
members. -/
theorem filter_class_lengths (latest : AssessmentData) (rest : List AssessmentData) :
    ((scoredAreas latest rest).filter fun item => item.isStrength).length +
      ((scoredAreas latest rest).filter fun item => item.isWeakness).length = 8 := by
  have h8 : (scoredAreas latest rest).length = 8 := by
    simp [scoredAreas, cognitiveAreas]
  have hcompl : (scoredAreas latest rest).filter (fun item => ! item.isStrength) =
      (scoredAreas latest rest).filter fun item => item.isWeakness := by
    refine List.filter_congr fun x hx => ?_
    rw [(scoredAreas_class latest rest x hx).1, (scoredAreas_class latest rest x hx).2,
      ← decide_not]
    exact decide_eq_decide.mpr not_le
  have hsplit := List.length_eq_length_filter_add
    (l := scoredAreas latest rest) fun item => item.isStrength
  rw [h8, hcompl] at hsplit
  omega

/-- C9: on the successful analysis path one of the two returned lists is
always full: the larger of the two lengths is exactly 3, because the 8
dimensions are split between the two classes, so one class has at least 4
members and is truncated to 3. -/
theorem one_list_always_full (userId : String) (env : FetchEnv)
    (latest : AssessmentData) (rest : List AssessmentData)
    (h : env.assessments = Except.ok (some (latest :: rest))) :
    max (getStrengthsAndWeaknesses userId env).1.strengths.length
      (getStrengthsAndWeaknesses userId env).1.weaknesses.length = 3 := by
  rcases result_lists_eq userId env latest rest h with ⟨hstr, hwk⟩
  rw [hstr, hwk]
  have hslen : (potentialStrengths latest rest).length =
      min 3 ((scoredAreas latest rest).filter fun item => item.isStrength).length := by
    simp [potentialStrengths, strengthSorted]
  have hwlen : (potentialWeaknesses latest rest).length =
      min 3 ((scoredAreas latest rest).filter fun item => item.isWeakness).length := by
    simp [potentialWeaknesses, weaknessSorted]
  have hsum := filter_class_lengths latest rest
  rw [List.length_take, List.length_take, hslen, hwlen]
  omega

/-- Witness for C9 at the concrete single-record environment. -/
theorem one_list_always_full_witness :
    demoEnv.assessments = Except.ok (some [demoAssessment]) ∧
    max (getStrengthsAndWeaknesses "user-9" demoEnv).1.strengths.length
      (getStrengthsAndWeaknesses "user-9" demoEnv).1.weaknesses.length = 3 :=
  ⟨rfl, one_list_always_full "user-9" demoEnv demoAssessment [] rfl⟩

end

end InsightService
